import Mathlib

/-!
Shallow embedding of the trading-signal engine in eth_macd_strategy.py.

Python floats are modelled as exact rationals.  Pandas series are modelled
as lists of optional rationals, where none plays the role of NaN.  Code
that can raise (ValueError, ZeroDivisionError) is modelled with Except.
-/

namespace EthMacdStrategy

/-- Module constant LEVERAGE = 100. -/
def LEVERAGE : ℚ := 100

/-- Module constant CONTRACT_MULTIPLIER = 1.0. -/
def CONTRACT_MULTIPLIER : ℚ := 1

/-- Dataclass TrailingStopConfig with its source defaults. -/
structure TrailingStopConfig where
  start_roi : ℚ := 10
  step_roi : ℚ := 8
  stop_loss_roi : ℚ := 9
  deriving DecidableEq, Repr

/-- Function pct_to_price: convert ROI percent on margin to a raw price
level.  The local variable price_delta_ratio = (roi_percent / leverage) / 100
of the source is inlined.  A zero leverage would raise ZeroDivisionError in
the source, so every theorem about a variable leverage assumes it nonzero. -/
def pct_to_price (side : String) (entry_price roi_percent leverage : ℚ) : ℚ :=
  if side = "long" then entry_price * (1 + roi_percent / leverage / 100)
  else entry_price * (1 - roi_percent / leverage / 100)

/-- Function price_to_roi: convert a price movement into ROI percent on
margin; raises ValueError when the entry price is not positive. -/
def price_to_roi (side : String) (entry_price current_price leverage : ℚ) :
    Except String ℚ :=
  if entry_price ≤ 0 then Except.error ("entry_price must be positive")
  else
    let price_change := (current_price - entry_price) / entry_price * 100
    let raw_roi := price_change * leverage
    Except.ok (if side = "long" then raw_roi else -raw_roi)

/-- Function compute_trailing_stop.  The source calls pct_to_price without a
leverage argument, so the default LEVERAGE is passed explicitly here. -/
def compute_trailing_stop (side : String) (entry_price peak_roi : ℚ)
    (config : TrailingStopConfig) (current_stop_price : Option ℚ) : ℚ :=
  let stop_price := pct_to_price side entry_price (-config.stop_loss_roi) LEVERAGE
  let stop_price :=
    if config.start_roi ≤ peak_roi then
      let target_roi := max 0 (peak_roi - config.step_roi)
      let trailing_price := pct_to_price side entry_price target_roi LEVERAGE
      if side = "long" then max stop_price trailing_price
      else min stop_price trailing_price
    else stop_price
  match current_stop_price with
  | none => stop_price
  | some cur => if side = "long" then max stop_price cur else min stop_price cur

/-- Function determine_position_size.  The source raises ValueError for a
non-positive balance; math.floor of a division whose denominator
entry_price * multiplier is zero raises ZeroDivisionError, modelled by the
second error branch. -/
def determine_position_size (balance_usdt entry_price position_percent
    leverage multiplier : ℚ) : Except String ℤ :=
  if balance_usdt ≤ 0 then
    Except.error ("Account balance must be positive to size a position")
  else
    let margin_used := balance_usdt * (position_percent / 100)
    let position_value := margin_used * leverage
    if entry_price * multiplier = 0 then Except.error ("float division by zero")
    else Except.ok (max (⌊position_value / (entry_price * multiplier)⌋) 1)

/-- Helper: with a previous stop supplied, the long-side trailing stop is the
max of the no-previous-stop result and the previous stop. -/
theorem cts_long_some (e peak prev : ℚ) (cfg : TrailingStopConfig) :
    compute_trailing_stop "long" e peak cfg (some prev) =
      max (compute_trailing_stop "long" e peak cfg none) prev := by
  simp [compute_trailing_stop]

/-- Helper: with a previous stop supplied, the short-side trailing stop is
the min of the no-previous-stop result and the previous stop. -/
theorem cts_short_some (e peak prev : ℚ) (cfg : TrailingStopConfig) :
    compute_trailing_stop "short" e peak cfg (some prev) =
      min (compute_trailing_stop "short" e peak cfg none) prev := by
  have h : ("short" : String) ≠ "long" := by decide
  simp [compute_trailing_stop, h]

/-- C1: below start_roi the trailing stop is the static cap
pct_to_price side entry (-stop_loss_roi); at or above start_roi it is the
more favorable (max for long, min otherwise) of that cap and
pct_to_price side entry (max 0 (peak_roi - step_roi)); and the three
concrete values of the spec example with start 10, step 8, stop loss 9,
entry 2000 on the long side hold. -/
theorem trailing_stop_formula (side : String) (e peak : ℚ)
    (cfg : TrailingStopConfig) (he : 0 < e) (hstart : 0 < cfg.start_roi)
    (hstep : 0 < cfg.step_roi) (hsl : 0 < cfg.stop_loss_roi) :
    (peak < cfg.start_roi →
      compute_trailing_stop side e peak cfg none =
        pct_to_price side e (-cfg.stop_loss_roi) LEVERAGE) ∧
    (cfg.start_roi ≤ peak →
      compute_trailing_stop side e peak cfg none =
        (if side = "long" then max else min)
          (pct_to_price side e (-cfg.stop_loss_roi) LEVERAGE)
          (pct_to_price side e (max 0 (peak - cfg.step_roi)) LEVERAGE)) ∧
    compute_trailing_stop "long" 2000 5 ⟨10, 8, 9⟩ none =
      pct_to_price "long" 2000 (-9) LEVERAGE ∧
    compute_trailing_stop "long" 2000 10 ⟨10, 8, 9⟩ none =
      pct_to_price "long" 2000 2 LEVERAGE ∧
    compute_trailing_stop "long" 2000 26 ⟨10, 8, 9⟩
        (some (compute_trailing_stop "long" 2000 10 ⟨10, 8, 9⟩ none)) =
      pct_to_price "long" 2000 18 LEVERAGE := by
  refine ⟨?_, ?_, ?_, ?_, ?_⟩
  · intro hlt
    simp [compute_trailing_stop, not_le.mpr hlt]
  · intro hge
    by_cases hs : side = "long" <;>
      simp [compute_trailing_stop, hge, hs]
  · simp [compute_trailing_stop, pct_to_price, LEVERAGE]
    norm_num
  · simp only [compute_trailing_stop, pct_to_price, LEVERAGE]
    norm_num
  · simp only [compute_trailing_stop, pct_to_price, LEVERAGE]
    norm_num

/-- Witness for trailing_stop_formula at a concrete input. -/
theorem trailing_stop_formula_witness :
    compute_trailing_stop "long" 2000 5 ⟨10, 8, 9⟩ none =
      pct_to_price "long" 2000 (-9) LEVERAGE :=
  (trailing_stop_formula "long" 2000 5 ⟨10, 8, 9⟩ (by norm_num) (by norm_num)
    (by norm_num) (by norm_num)).1 (by norm_num)

/-- C2: ratchet invariant.  With a previous stop supplied, the new stop is
never less favorable: at least the previous stop for a long, at most the
previous stop for a short, for all entries, peaks and configurations. -/
theorem trailing_stop_ratchet (e peak prev : ℚ) (cfg : TrailingStopConfig) :
    prev ≤ compute_trailing_stop "long" e peak cfg (some prev) ∧
    compute_trailing_stop "short" e peak cfg (some prev) ≤ prev := by
  rw [cts_long_some, cts_short_some]
  exact ⟨le_max_right _ _, min_le_right _ _⟩

/-- C3: round trip of the ROI and price conversions.  For every side, a
positive entry price and a nonzero leverage, price_to_roi inverts
pct_to_price exactly in rational arithmetic. -/
theorem roi_price_round_trip (side : String) (e r l : ℚ) (he : 0 < e)
    (hl : l ≠ 0) :
    price_to_roi side e (pct_to_price side e r l) l = Except.ok r := by
  have he' : e ≠ 0 := ne_of_gt he
  unfold price_to_roi pct_to_price
  rw [if_neg (not_le.mpr he)]
  by_cases hs : side = "long" <;> simp only [hs, if_pos, if_neg, ite_true,
    ite_false, Except.ok.injEq] <;> field_simp <;> ring

/-- Witness for roi_price_round_trip at a concrete input. -/
theorem roi_price_round_trip_witness :
    price_to_roi "long" 2000 (pct_to_price "long" 2000 7 100) 100 =
      Except.ok 7 :=
  roi_price_round_trip "long" 2000 7 100 (by norm_num) (by norm_num)

/-- C4 counterexample: with a positive balance but entry_price 0 the source
raises ZeroDivisionError, not a validation error, and returns nothing, so
the claim that every positive balance yields max 1 (floor ...) fails. -/
theorem position_size_zero_denominator :
    determine_position_size 1 0 1 100 1 =
      Except.error ("float division by zero") := by
  simp only [determine_position_size]
  norm_num

/-- C4 amended: determine_position_size yields the validation error exactly
when the balance is not positive; and for a positive balance, whenever the
denominator entry_price * multiplier is nonzero, it returns
max 1 (floor (balance * (percent / 100) * leverage / (entry * multiplier))),
with the spec example 5000, 2000, 1 percent, leverage 100, multiplier 1
giving size 2. -/
theorem position_size_spec (b e p l m : ℚ) :
    (determine_position_size b e p l m =
        Except.error ("Account balance must be positive to size a position") ↔
      b ≤ 0) ∧
    (0 < b → e * m ≠ 0 →
      determine_position_size b e p l m =
        Except.ok (max 1 (⌊b * (p / 100) * l / (e * m)⌋))) ∧
    determine_position_size 5000 2000 1 100 1 = Except.ok 2 := by
  refine ⟨?_, ?_, ?_⟩
  · constructor
    · intro h
      by_contra hb
      simp only [determine_position_size, if_neg hb] at h
      by_cases hz : e * m = 0
      · rw [if_pos hz] at h
        exact absurd (Except.error.inj h) (by decide)
      · rw [if_neg hz] at h
        exact Except.noConfusion h
    · intro hb
      simp only [determine_position_size, if_pos hb]
  · intro hb hz
    simp only [determine_position_size, if_neg (not_le.mpr hb), if_neg hz]
    rw [max_comm]
  · simp only [determine_position_size]
    norm_num

/-- Witness for position_size_spec at a concrete input. -/
theorem position_size_spec_witness :
    determine_position_size 5000 2000 1 100 1 = Except.ok 2 :=
  (position_size_spec 5000 2000 1 100 1).2.2

/-- C10: the side argument is never validated; every side other than the
exact string long takes the same branches as the short side in
pct_to_price, price_to_roi and compute_trailing_stop, and no error is
raised for an unrecognized side. -/
theorem unrecognized_side_behaves_as_short (side : String)
    (h : side ≠ "long") (e r c peak : ℚ) (l : ℚ)
    (cfg : TrailingStopConfig) (cur : Option ℚ) :
    pct_to_price side e r l = pct_to_price "short" e r l ∧
    price_to_roi side e c l = price_to_roi "short" e c l ∧
    compute_trailing_stop side e peak cfg cur =
      compute_trailing_stop "short" e peak cfg cur := by
  have h2 : ("short" : String) ≠ "long" := by decide
  refine ⟨?_, ?_, ?_⟩
  · simp [pct_to_price, h, h2]
  · simp [price_to_roi, h, h2]
  · cases cur <;> simp [compute_trailing_stop, pct_to_price, h, h2]

/-- Witness for unrecognized_side_behaves_as_short at a concrete input. -/
theorem unrecognized_side_behaves_as_short_witness :
    pct_to_price "none" 2000 7 100 = pct_to_price "short" 2000 7 100 ∧
    price_to_roi "none" 2000 1990 100 = price_to_roi "short" 2000 1990 100 ∧
    compute_trailing_stop "none" 2000 12 ⟨10, 8, 9⟩ (some 2001) =
      compute_trailing_stop "short" 2000 12 ⟨10, 8, 9⟩ (some 2001) :=
  unrecognized_side_behaves_as_short "none" (by decide) 2000 7 1990 12 100
    ⟨10, 8, 9⟩ (some 2001)

/-! Pandas series machinery.  A series entry none plays the role of NaN.
Binary arithmetic on entries propagates NaN; window aggregations with
min_periods equal to the window demand a full window of defined entries;
window minima and maxima skip NaN. -/

/-- NaN-propagating subtraction of series entries. -/
def optSub (a b : Option ℚ) : Option ℚ :=
  match a, b with
  | some x, some y => some (x - y)
  | _, _ => none

/-- NaN-propagating addition of series entries. -/
def optAdd (a b : Option ℚ) : Option ℚ :=
  match a, b with
  | some x, some y => some (x + y)
  | _, _ => none

/-- NaN-propagating division of series entries.  On the paths below a
defined denominator is never the exact zero (the source guards with a
replace of 0 by NaN, or an isclose test), so the rational convention for
x / 0 is unobservable; numpy would produce an infinity there, which this
model does not represent and no theorem depends on. -/
def optDiv (a b : Option ℚ) : Option ℚ :=
  match a, b with
  | some x, some y => some (x / y)
  | _, _ => none

/-- Pandas Series.diff: first entry NaN, then successive differences. -/
def sDiff : List (Option ℚ) → List (Option ℚ)
  | [] => []
  | x :: xs => none :: List.zipWith optSub xs (x :: xs)

/-- Pandas Series.clip(lower=0); NaN entries stay NaN. -/
def clipLower0 (s : List (Option ℚ)) : List (Option ℚ) :=
  s.map (Option.map (fun v => max v 0))

/-- Pandas Series.clip(upper=0); NaN entries stay NaN. -/
def clipUpper0 (s : List (Option ℚ)) : List (Option ℚ) :=
  s.map (Option.map (fun v => min v 0))

/-- Pandas unary minus on a series. -/
def sNeg (s : List (Option ℚ)) : List (Option ℚ) :=
  s.map (Option.map (fun v => -v))

/-- Pandas Series.abs. -/
def sAbs (s : List (Option ℚ)) : List (Option ℚ) :=
  s.map (Option.map (fun v => |v|))

/-- Pandas Series.rolling(window = n, min_periods = n) followed by an
aggregation f of the window values: defined at position i exactly when at
least n entries exist up to i and none of the trailing n is NaN. -/
def rollingApply (f : List ℚ → ℚ) (n : ℕ) (s : List (Option ℚ)) :
    List (Option ℚ) :=
  (List.range s.length).map (fun i =>
    if i + 1 < n then none
    else
      let w := (s.take (i + 1)).drop (i + 1 - n)
      if w.all Option.isSome then some (f (w.filterMap id)) else none)

/-- Rolling mean over a full window of n entries. -/
def rollingMean (n : ℕ) (s : List (Option ℚ)) : List (Option ℚ) :=
  rollingApply (fun w => w.sum / (n : ℚ)) n s

/-- Pandas Series.replace(0, np.nan). -/
def replaceZeroWithNaN (s : List (Option ℚ)) : List (Option ℚ) :=
  s.map (fun o =>
    match o with
    | some v => if v = 0 then none else some v
    | none => none)

/-- Average gain series of ta_rsi: rolling mean of the positive deltas. -/
def rsi_avg_gain (s : List (Option ℚ)) (length : ℕ) : List (Option ℚ) :=
  rollingMean length (clipLower0 (sDiff s))

/-- Average loss series of ta_rsi: rolling mean of the negated negative
deltas. -/
def rsi_avg_loss (s : List (Option ℚ)) (length : ℕ) : List (Option ℚ) :=
  rollingMean length (sNeg (clipUpper0 (sDiff s)))

/-- Function ta_rsi: rs divides average gain by the average loss with its
zeros replaced by NaN, rsi is 100 - 100 / (1 + rs), and the final
fillna(50.0) turns every NaN into the defined value 50. -/
def ta_rsi (s : List (Option ℚ)) (length : ℕ) : List ℚ :=
  let rs := List.zipWith optDiv (rsi_avg_gain s length)
    (replaceZeroWithNaN (rsi_avg_loss s length))
  let rsi := rs.map (Option.map (fun x => 100 - 100 / (1 + x)))
  rsi.map (fun o => o.getD 50)

/-- Pandas Series.shift(1): NaN first, then the entries without the last. -/
def shift1 : List (Option ℚ) → List (Option ℚ)
  | [] => []
  | x :: xs => none :: (x :: xs).dropLast

/-- Row maximum of two entries as pandas DataFrame.max(axis=1) computes it:
NaN entries are skipped, and the row is NaN only when every entry is. -/
def nanMax2 (a b : Option ℚ) : Option ℚ :=
  match a, b with
  | none, b => b
  | a, none => a
  | some x, some y => some (max x y)

/-- Absolute value of a series entry. -/
def optAbs (a : Option ℚ) : Option ℚ := a.map (fun v => |v|)

/-- First defined entry of a series, if any. -/
def firstSome : List (Option ℚ) → Option ℚ
  | [] => none
  | some v :: _ => some v
  | none :: xs => firstSome xs

/-- Pandas Series.bfill: every NaN is replaced by the next defined entry
after it; trailing NaN entries stay NaN. -/
def bfill : List (Option ℚ) → List (Option ℚ)
  | [] => []
  | x :: xs =>
    (match x with
     | some v => some v
     | none => firstSome xs) :: bfill xs

/-- Function ta_atr: true range rows are the NaN-skipping row maximum of
high - low, abs (high - prev_close) and abs (low - prev_close); then a
rolling mean over a full window, then a backward fill. -/
def ta_atr (highs lows closes : List (Option ℚ)) (length : ℕ) :
    List (Option ℚ) :=
  let prev_close := shift1 closes
  let tr := List.zipWith nanMax2
    (List.zipWith nanMax2 (List.zipWith optSub highs lows)
      ((List.zipWith optSub highs prev_close).map optAbs))
    ((List.zipWith optSub lows prev_close).map optAbs)
  bfill (rollingMean length tr)

/-- Bollinger width of compute_indicators: basis is a 20 entry rolling
mean, the deviation is twice the population standard deviation of the
window.  A standard deviation is irrational in general, so the aggregation
of the deviation window is abstracted as the argument stdfn; the theorems
below hold for every such aggregation. -/
def bb_width_with (stdfn : List ℚ → ℚ) (closes : List (Option ℚ)) :
    List (Option ℚ) :=
  let bb_basis := rollingMean 20 closes
  let bb_dev := rollingApply (fun w => 2 * stdfn w) 20 closes
  let bb_upper := List.zipWith optAdd bb_basis bb_dev
  let bb_lower := List.zipWith optSub bb_basis bb_dev
  (List.zipWith optDiv (List.zipWith optSub bb_upper bb_lower) closes).map
    (Option.map (fun v => v * 100))

/-- Volume rolling average of compute_indicators. -/
def vol_ma (volumes : List (Option ℚ)) (length : ℕ) : List (Option ℚ) :=
  rollingMean length volumes

/-- Pandas window minimum: NaN entries are skipped; none when no entry is
defined. -/
def pdMin (w : List (Option ℚ)) : Option ℚ := (w.filterMap id).min?

/-- Pandas window maximum: NaN entries are skipped. -/
def pdMax (w : List (Option ℚ)) : Option ℚ := (w.filterMap id).max?

/-- Function math.isclose with its default tolerances rel_tol = 1e-9 and
abs_tol = 0. -/
def isclose (a b : ℚ) : Bool :=
  |a - b| ≤ max (1 / 1000000000 * max |a| |b|) 0

/-- Function math.isclose lifted to series entries; any comparison
involving NaN is false. -/
def oIsclose : Option ℚ → Option ℚ → Bool
  | some a, some b => isclose a b
  | _, _ => false

/-- Python min(c, v) with a possibly NaN second argument: a comparison with
NaN is false, so min returns its first argument on NaN. -/
def pyMinNum (c : ℚ) : Option ℚ → ℚ
  | some v => if v < c then v else c
  | none => c

/-- Python max(c, m): returns m when c < m, else c. -/
def pyMaxNum (c m : ℚ) : ℚ := if c < m then m else c

/-- Pandas Series.tail(n): the trailing n entries. -/
def sTail (n : ℕ) (s : List (Option ℚ)) : List (Option ℚ) :=
  s.drop (s.length - n)

/-- Function normalize_series: 0 on an empty series; 0 when the window
minimum and maximum are close in the sense of math.isclose; otherwise
(last - min) / (max - min) * 100 clamped to [0, 100] with the Python
min and max argument order of the source. -/
def normalize_series (series : List (Option ℚ)) (lookback : ℕ) : ℚ :=
  if series.isEmpty then 0
  else
    let window := sTail lookback series
    let low := pdMin window
    let high := pdMax window
    if oIsclose low high then 0
    else
      pyMaxNum 0 (pyMinNum 100
        ((optDiv (optSub (series.getLast?.getD none) low)
          (optSub high low)).map (fun v => v * 100)))

@[simp]
theorem rollingApply_length (f : List ℚ → ℚ) (n : ℕ) (s : List (Option ℚ)) :
    (rollingApply f n s).length = s.length := by
  simp [rollingApply]

@[simp]
theorem rollingMean_length (n : ℕ) (s : List (Option ℚ)) :
    (rollingMean n s).length = s.length := by
  simp [rollingMean]

@[simp]
theorem sDiff_length (s : List (Option ℚ)) : (sDiff s).length = s.length := by
  cases s with
  | nil => rfl
  | cons x xs => simp [sDiff]

theorem optDiv_none_right (a : Option ℚ) : optDiv a none = none := by
  cases a <;> rfl

theorem optDiv_none_left (b : Option ℚ) : optDiv none b = none := by
  cases b <;> rfl

theorem getElem?_zipWith_of_some (f : Option ℚ → Option ℚ → Option ℚ)
    (a b : List (Option ℚ)) (i : ℕ) (x y : Option ℚ)
    (ha : a[i]? = some x) (hb : b[i]? = some y) :
    (List.zipWith f a b)[i]? = some (f x y) := by
  rw [List.getElem?_zipWith', ha, hb]
  rfl

theorem rollingApply_of_short (f : List ℚ → ℚ) (n : ℕ)
    (s : List (Option ℚ)) (h : s.length < n) :
    rollingApply f n s = List.replicate s.length none := by
  rw [List.eq_replicate]
  refine ⟨by simp, ?_⟩
  intro b hb
  rw [rollingApply] at hb
  obtain ⟨i, hi, hval⟩ := List.mem_map.mp hb
  have hi' : i < s.length := List.mem_range.mp hi
  rw [if_pos (by omega)] at hval
  exact hval.symm

theorem firstSome_all_none (s : List (Option ℚ))
    (h : ∀ x ∈ s, x = none) : firstSome s = none := by
  induction s with
  | nil => rfl
  | cons x xs ih =>
    have hx := h x (by simp)
    subst hx
    rw [firstSome]
    exact ih (fun y hy => h y (by simp [hy]))

theorem bfill_replicate_none (k : ℕ) :
    bfill (List.replicate k none) = List.replicate k none := by
  induction k with
  | zero => rfl
  | succ m ih =>
    rw [List.replicate_succ, bfill, ih,
      firstSome_all_none _ (fun x hx => List.eq_of_mem_replicate hx)]

theorem foldl_min_of_le (xs : List ℚ) (x : ℚ) (h : ∀ y ∈ xs, x ≤ y) :
    xs.foldl min x = x := by
  induction xs generalizing x with
  | nil => rfl
  | cons y ys ih =>
    rw [List.foldl_cons, min_eq_left (h y (by simp))]
    exact ih x (fun z hz => h z (by simp [hz]))

theorem min?_of_sorted (l : List ℚ) (h : l.Pairwise (· < ·)) :
    l.min? = l.head? := by
  cases l with
  | nil => rfl
  | cons x xs =>
    have hx : ∀ y ∈ xs, x ≤ y := fun y hy =>
      le_of_lt ((List.pairwise_cons.mp h).1 y hy)
    show some (xs.foldl min x) = some x
    rw [foldl_min_of_le xs x hx]

theorem max?_of_sorted (l : List ℚ) (h : l.Pairwise (· < ·)) :
    l.max? = l.getLast? := by
  induction l with
  | nil => rfl
  | cons x xs ih =>
    cases xs with
    | nil => rfl
    | cons y ys =>
      have hpair := List.pairwise_cons.mp h
      have hxy : x < y := hpair.1 y (by simp)
      have htail := ih hpair.2
      show some ((y :: ys).foldl max x) = (x :: y :: ys).getLast?
      rw [List.getLast?_cons_cons, ← htail, List.foldl_cons,
        max_eq_right (le_of_lt hxy)]
      rfl

theorem sorted_head?_le_getLast? :
    ∀ l : List ℚ, l.Pairwise (· < ·) → ∀ x y : ℚ,
      l.head? = some x → l.getLast? = some y → x ≤ y
  | [], _, x, y, hx, _ => by simp at hx
  | [a], _, x, y, hx, hy => by
    simp only [List.head?_cons, Option.some.injEq] at hx
    simp only [List.getLast?_singleton, Option.some.injEq] at hy
    rw [← hx, ← hy]
  | a :: b :: bs, h, x, y, hx, hy => by
    have hpair := List.pairwise_cons.mp h
    simp only [List.head?_cons, Option.some.injEq] at hx
    rw [List.getLast?_cons_cons] at hy
    rw [← hx]
    exact le_trans (le_of_lt (hpair.1 b (by simp)))
      (sorted_head?_le_getLast? (b :: bs) hpair.2 b y (by
        rw [List.head?_cons]) hy)

theorem isclose_self (v : ℚ) : isclose v v = true := by
  simp [isclose, le_max_iff]

@[simp]
theorem shift1_length (s : List (Option ℚ)) : (shift1 s).length = s.length := by
  cases s with
  | nil => rfl
  | cons x xs => simp [shift1]

theorem pyMinNum_le (c : ℚ) (x : Option ℚ) : pyMinNum c x ≤ c := by
  cases x with
  | none => exact le_refl c
  | some v =>
    rw [pyMinNum]
    split
    · exact le_of_lt (by assumption)
    · exact le_refl c

theorem le_pyMaxNum (c m : ℚ) : c ≤ pyMaxNum c m := by
  rw [pyMaxNum]
  split
  · exact le_of_lt (by assumption)
  · exact le_refl c

theorem pyMaxNum_le (c m d : ℚ) (h1 : c ≤ d) (h2 : m ≤ d) :
    pyMaxNum c m ≤ d := by
  rw [pyMaxNum]
  split
  · exact h2
  · exact h1

/-- C6 counterexample: the two entry series 1, 1 + 1e-10 has a strictly
increasing trailing window, yet math.isclose (relative tolerance 1e-9)
deems its minimum and maximum close, so normalize_series returns 0 for the
latest value, not 100. -/
theorem normalize_series_tolerance_counterexample :
    List.Pairwise (· < ·) [(1 : ℚ), 1 + 1 / 10000000000] ∧
    normalize_series [some 1, some (1 + 1 / 10000000000)] 2 = 0 ∧
    (0 : ℚ) ≠ 100 := by
  refine ⟨by norm_num [List.pairwise_cons], ?_, by norm_num⟩
  have hclose : isclose 1 (10000000001 / 10000000000) = true := by
    simp only [isclose, decide_eq_true_eq]
    rw [abs_of_nonpos (by norm_num), abs_of_nonneg (by norm_num),
      abs_of_nonneg (by norm_num),
      max_eq_right (by norm_num : (1 : ℚ) ≤ 10000000001 / 10000000000),
      max_eq_left (by norm_num :
        (0 : ℚ) ≤ 1 / 1000000000 * (10000000001 / 10000000000))]
    norm_num
  norm_num [normalize_series, sTail, pdMin, pdMax, oIsclose,
    List.filterMap_cons, hclose]

/-- C6 amended: normalize_series returns 0 on the empty series; returns 0
whenever the trailing window has equal defined minimum and maximum; returns
100 for a NaN free series whose trailing window is strictly increasing,
provided also that the window minimum and maximum are not within the 1e-9
relative tolerance of math.isclose (the proviso the counterexample forces);
and every result lies in the interval [0, 100]. -/
theorem normalize_series_spec :
    (∀ n : ℕ, normalize_series [] n = 0) ∧
    (∀ (s : List (Option ℚ)) (n : ℕ) (v : ℚ),
      pdMin (sTail n s) = some v → pdMax (sTail n s) = some v →
      normalize_series s n = 0) ∧
    (∀ (l : List ℚ) (n : ℕ), l ≠ [] → 1 ≤ n →
      (l.drop (l.length - n)).Pairwise (· < ·) →
      oIsclose (pdMin (sTail n (l.map some)))
        (pdMax (sTail n (l.map some))) = false →
      normalize_series (l.map some) n = 100) ∧
    (∀ (s : List (Option ℚ)) (n : ℕ),
      0 ≤ normalize_series s n ∧ normalize_series s n ≤ 100) := by
  refine ⟨fun n => rfl, ?_, ?_, ?_⟩
  · intro s n v hmin hmax
    have hs : s ≠ [] := by
      intro he
      subst he
      simp [pdMin, sTail] at hmin
    have hie : s.isEmpty = false := by simp [List.isEmpty_iff, hs]
    simp only [normalize_series, hie, Bool.false_eq_true, if_false, hmin,
      hmax, oIsclose, isclose_self, if_true]
  · intro l n hl hn hsort hfar
    have hlpos : 0 < l.length := List.length_pos.mpr hl
    have hkl : l.length - n < l.length := by omega
    have hw : sTail n (l.map some) = (l.drop (l.length - n)).map some := by
      rw [sTail, List.length_map, List.map_drop]
    have hmin_eq : pdMin (sTail n (l.map some)) =
        (l.drop (l.length - n)).min? := by
      rw [hw, pdMin, List.filterMap_map]
      simp [List.filterMap_some]
    have hmax_eq : pdMax (sTail n (l.map some)) =
        (l.drop (l.length - n)).max? := by
      rw [hw, pdMax, List.filterMap_map]
      simp [List.filterMap_some]
    have hwlen : 0 < (l.drop (l.length - n)).length := by
      rw [List.length_drop]
      omega
    have hwne : l.drop (l.length - n) ≠ [] := List.ne_nil_of_length_pos hwlen
    have hlast_drop : (l.drop (l.length - n)).getLast? = l.getLast? := by
      rw [List.getLast?_drop, if_neg (by omega)]
    have hlastl : l.getLast? = some (l.getLast hl) :=
      List.getLast?_eq_getLast l hl
    have hmin2 : (l.drop (l.length - n)).min? =
        some ((l.drop (l.length - n)).head hwne) := by
      rw [min?_of_sorted _ hsort, List.head?_eq_head hwne]
    have hmax2 : (l.drop (l.length - n)).max? = some (l.getLast hl) := by
      rw [max?_of_sorted _ hsort, hlast_drop, hlastl]
    have hle : (l.drop (l.length - n)).head hwne ≤ l.getLast hl :=
      sorted_head?_le_getLast? _ hsort _ _ (List.head?_eq_head hwne)
        (hlast_drop.trans hlastl)
    have hne2 : (l.drop (l.length - n)).head hwne ≠ l.getLast hl := by
      intro heq
      rw [hmin_eq, hmax_eq, hmin2, hmax2, heq] at hfar
      simp [oIsclose, isclose_self] at hfar
    have hlt : (l.drop (l.length - n)).head hwne < l.getLast hl :=
      lt_of_le_of_ne hle hne2
    have hie : (l.map some).isEmpty = false := by
      simp [List.isEmpty_iff, hl]
    have hlastmap : (l.map some).getLast?.getD none =
        some (l.getLast hl) := by
      rw [List.getLast?_map, hlastl]
      rfl
    have hfar2 : oIsclose (some ((l.drop (l.length - n)).head hwne))
        (some (l.getLast hl)) = false := by
      rw [← hmin2, ← hmax2, ← hmin_eq, ← hmax_eq]
      exact hfar
    have hd : l.getLast hl - (l.drop (l.length - n)).head hwne ≠ 0 :=
      ne_of_gt (sub_pos.mpr hlt)
    simp only [normalize_series, hie, Bool.false_eq_true, if_false,
      hmin_eq, hmax_eq, hmin2, hmax2, hlastmap]
    rw [hfar2]
    simp only [Bool.false_eq_true, if_false, optSub, optDiv,
      Option.map_some', div_self hd, pyMinNum, pyMaxNum]
    norm_num
  · intro s n
    simp only [normalize_series]
    split
    · norm_num
    · split
      · norm_num
      · exact ⟨le_pyMaxNum 0 _,
          pyMaxNum_le 0 _ 100 (by norm_num) (pyMinNum_le 100 _)⟩

/-- Witness for normalize_series_spec at concrete inputs. -/
theorem normalize_series_spec_witness :
    normalize_series [] 3 = 0 ∧
    normalize_series [some 3, some 3] 2 = 0 ∧
    normalize_series [some 1, some 2] 2 = 100 ∧
    (0 ≤ normalize_series [some 5] 1 ∧ normalize_series [some 5] 1 ≤ 100) :=
  ⟨normalize_series_spec.1 3,
   normalize_series_spec.2.1 [some 3, some 3] 2 3
     (by norm_num [pdMin, sTail, List.filterMap_cons])
     (by norm_num [pdMax, sTail, List.filterMap_cons]),
   normalize_series_spec.2.2.1 [1, 2] 2 (List.cons_ne_nil 1 [2])
     (by norm_num)
     (by norm_num [List.pairwise_cons])
     (by norm_num [pdMin, pdMax, sTail, oIsclose, isclose,
       List.filterMap_cons, abs_of_nonneg, abs_of_nonpos]),
   normalize_series_spec.2.2.2 [some 5] 1⟩

/-- C5: whenever the rolling average loss over a full window is exactly
zero, ta_rsi yields exactly the neutral 50 at that position; the embedding
is a total function, so no input raises, and the output has one value per
input entry. -/
theorem rsi_zero_avg_loss_gives_50 (s : List (Option ℚ)) (n i : ℕ)
    (hn : 1 ≤ n) (h : (rsi_avg_loss s n)[i]? = some (some 0)) :
    (ta_rsi s n)[i]? = some 50 ∧ (ta_rsi s n).length = s.length := by
  have hlen_loss : (rsi_avg_loss s n).length = s.length := by
    simp [rsi_avg_loss, clipUpper0, sNeg]
  have hi : i < s.length := by
    have := (List.getElem?_eq_some.mp h).1
    omega
  have hrep : (replaceZeroWithNaN (rsi_avg_loss s n))[i]? = some none := by
    rw [replaceZeroWithNaN, List.getElem?_map, h]
    rfl
  have hgain_len : (rsi_avg_gain s n).length = s.length := by
    simp [rsi_avg_gain, clipLower0]
  have hig : i < (rsi_avg_gain s n).length := by omega
  have hrs : (List.zipWith optDiv (rsi_avg_gain s n)
      (replaceZeroWithNaN (rsi_avg_loss s n)))[i]? = some none := by
    rw [getElem?_zipWith_of_some optDiv _ _ i _ none
      (List.getElem?_eq_getElem hig) hrep, optDiv_none_right]
  constructor
  · simp only [ta_rsi]
    rw [List.getElem?_map, List.getElem?_map, hrs]
    rfl
  · simp [ta_rsi, replaceZeroWithNaN, hgain_len, hlen_loss]

/-- Witness for rsi_zero_avg_loss_gives_50: a strictly rising two entry
series has average loss exactly 0 on its first full one entry window. -/
theorem rsi_zero_avg_loss_gives_50_witness :
    (ta_rsi [some 1, some 2] 1)[1]? = some 50 ∧
      (ta_rsi [some 1, some 2] 1).length =
        ([some 1, some 2] : List (Option ℚ)).length :=
  rsi_zero_avg_loss_gives_50 [some 1, some 2] 1 1 (by norm_num)
    (by norm_num [rsi_avg_loss, rollingMean, rollingApply, sDiff, sNeg,
      clipUpper0, optSub, List.range_succ, List.filterMap_cons,
      List.sum_cons])

/-- C7 counterexample: on a one entry series, shorter than the 14 entry
window, ta_rsi returns the defined sentinel value 50.0 at the insufficient
position, not an explicitly undefined value. -/
theorem short_series_rsi_sentinel_counterexample :
    ta_rsi [some 1] 14 = [50] := by
  norm_num [ta_rsi, rsi_avg_gain, rsi_avg_loss, rollingMean, rollingApply,
    replaceZeroWithNaN, sDiff, sNeg, clipLower0, clipUpper0,
    List.range_succ, optDiv]

/-- C7 amended: on a series shorter than its required window, no indicator
raises (every embedding is a total function); ATR, the Bollinger width for
every standard deviation aggregation, and the volume average return the
undefined NaN entry at every position, while ta_rsi instead returns the
defined neutral sentinel 50 at every position because of its final
fillna(50.0). -/
theorem short_series_indicator_entries
    (hs ls cs vs s : List (Option ℚ)) (n i : ℕ) (stdfn : List ℚ → ℚ) :
    (s.length < n → i < s.length → (ta_rsi s n)[i]? = some 50) ∧
    (hs.length = cs.length → ls.length = cs.length → cs.length < n →
      i < cs.length → (ta_atr hs ls cs n)[i]? = some none) ∧
    (cs.length < 20 → i < cs.length →
      (bb_width_with stdfn cs)[i]? = some none) ∧
    (vs.length < n → i < vs.length → (vol_ma vs n)[i]? = some none) := by
  refine ⟨?_, ?_, ?_, ?_⟩
  · intro hlen hi
    have hgain : (rsi_avg_gain s n)[i]? = some none := by
      rw [rsi_avg_gain, rollingMean,
        rollingApply_of_short _ _ _ (by simpa [clipLower0] using hlen),
        List.getElem?_replicate, if_pos (by simpa [clipLower0] using hi)]
    have hloss : (rsi_avg_loss s n)[i]? = some none := by
      rw [rsi_avg_loss, rollingMean,
        rollingApply_of_short _ _ _ (by simpa [sNeg, clipUpper0] using hlen),
        List.getElem?_replicate, if_pos (by simpa [sNeg, clipUpper0] using hi)]
    have hrep : (replaceZeroWithNaN (rsi_avg_loss s n))[i]? = some none := by
      rw [replaceZeroWithNaN, List.getElem?_map, hloss]
      rfl
    simp only [ta_rsi]
    rw [List.getElem?_map, List.getElem?_map,
      getElem?_zipWith_of_some optDiv _ _ i none none hgain hrep,
      optDiv_none_left]
    rfl
  · intro hhs hls hlen hi
    simp only [ta_atr]
    have htr : (List.zipWith nanMax2
        (List.zipWith nanMax2 (List.zipWith optSub hs ls)
          ((List.zipWith optSub hs (shift1 cs)).map optAbs))
        ((List.zipWith optSub ls (shift1 cs)).map optAbs)).length =
        cs.length := by
      simp [List.length_zipWith, hhs, hls]
    rw [rollingMean, rollingApply_of_short _ _ _ (by omega),
      htr, bfill_replicate_none, List.getElem?_replicate, if_pos hi]
  · intro hlen hi
    simp only [bb_width_with]
    have hbasis : (rollingMean 20 cs)[i]? = some none := by
      rw [rollingMean, rollingApply_of_short _ _ _ hlen,
        List.getElem?_replicate, if_pos hi]
    have hdev : (rollingApply (fun w => 2 * stdfn w) 20 cs)[i]? =
        some none := by
      rw [rollingApply_of_short _ _ _ hlen, List.getElem?_replicate,
        if_pos hi]
    have hupper := getElem?_zipWith_of_some optAdd _ _ i none none hbasis hdev
    have hlower := getElem?_zipWith_of_some optSub _ _ i none none hbasis hdev
    have hnum := getElem?_zipWith_of_some optSub _ _ i _ _ hupper hlower
    have hcsi := List.getElem?_eq_getElem hi
    have hdivi := getElem?_zipWith_of_some optDiv _ _ i _ _ hnum hcsi
    rw [List.getElem?_map, hdivi]
    rfl
  · intro hlen hi
    rw [vol_ma, rollingMean, rollingApply_of_short _ _ _ hlen,
      List.getElem?_replicate, if_pos hi]

/-- Witness for short_series_indicator_entries on one entry series. -/
theorem short_series_indicator_entries_witness :
    (ta_rsi [some 1] 14)[0]? = some 50 ∧
    (ta_atr [some 1] [some 1] [some 1] 14)[0]? = some none ∧
    (bb_width_with (fun _ => 0) [some 1])[0]? = some none ∧
    (vol_ma [some 1] 14)[0]? = some none := by
  obtain ⟨h1, h2, h3, h4⟩ := short_series_indicator_entries
    [some 1] [some 1] [some 1] [some 1] [some 1] 14 0 (fun _ => 0)
  exact ⟨h1 (by norm_num) (by norm_num), h2 rfl rfl (by norm_num)
    (by norm_num), h3 (by norm_num) (by norm_num),
    h4 (by norm_num) (by norm_num)⟩

/-- Dataclass StrategyInputs with its source defaults; min_profit_roi
defaults to 1.0 through the KUCOIN_MIN_PROFIT_ROI environment variable and
is the one numeric field that validate() does not check. -/
structure StrategyInputs where
  fast_length : ℕ := 9
  slow_length : ℕ := 23
  signal_length : ℕ := 5
  macd_delta_min : ℚ := 1 / 100
  bb_min_expansion : ℚ := 1 / 2
  bars_to_kill : ℕ := 30
  atr_trail_mult : ℚ := 3 / 2
  min_profit_roi : ℚ := 1
  normalization_lookback : ℕ := 200
  weight_macd : ℚ := 45 / 100
  weight_bb : ℚ := 35 / 100
  weight_rsi : ℚ := 20 / 100
  strength_threshold : String := "Medium"
  use_trend_filter : Bool := true
  use_volume_filter : Bool := false
  volume_ma_length : ℕ := 50
  deriving DecidableEq, Repr

/-- Indicator bundle built by compute_indicators: the latest scalar of each
indicator (possibly NaN) plus the three full series the scorer needs. -/
structure IndicatorSnapshot where
  close : Option ℚ := none
  fast_ema : Option ℚ := none
  slow_ema : Option ℚ := none
  macd_delta : Option ℚ := none
  macd_slope : Option ℚ := none
  bb_width : Option ℚ := none
  rsi : Option ℚ := none
  atr : Option ℚ := none
  atr_percent : Option ℚ := none
  bb_upper : Option ℚ := none
  bb_lower : Option ℚ := none
  vol_ma : Option ℚ := none
  volume : Option ℚ := none
  macd_line : Option ℚ := none
  macd_signal : Option ℚ := none
  delta_series : List (Option ℚ) := []
  bb_width_series : List (Option ℚ) := []
  rsi_series : List (Option ℚ) := []
  deriving DecidableEq, Repr

/-- Score breakdown dictionary returned by determine_signal. -/
structure ScoreState where
  score_long : ℚ
  score_short : ℚ
  required : ℚ
  macd_component_long : ℚ
  macd_component_short : ℚ
  bb_component : ℚ
  rsi_component_long : ℚ
  rsi_component_short : ℚ
  deriving DecidableEq, Repr

/-- Second component of the determine_signal result: either the one key
reason dictionary of the early return, or the full score dictionary. -/
inductive ScoreOutput where
  | insufficient (reason : String)
  | scores (state : ScoreState)
  deriving DecidableEq, Repr

/-- Python comparison a < b on possibly NaN floats: false when either side
is NaN. -/
def pyLt (a b : Option ℚ) : Bool :=
  match a, b with
  | some x, some y => decide (x < y)
  | _, _ => false

/-- Python comparison a <= b on possibly NaN floats. -/
def pyLe (a b : Option ℚ) : Bool :=
  match a, b with
  | some x, some y => decide (x ≤ y)
  | _, _ => false

/-- Python comparison a > b on possibly NaN floats. -/
def pyGt (a b : Option ℚ) : Bool :=
  match a, b with
  | some x, some y => decide (y < x)
  | _, _ => false

/-- Python comparison a >= b on possibly NaN floats. -/
def pyGe (a b : Option ℚ) : Bool :=
  match a, b with
  | some x, some y => decide (y ≤ x)
  | _, _ => false

/-- Function clamp of the source, with the Python min and max argument
order; a NaN value clamps to high because a comparison with NaN is false. -/
def clamp (value : Option ℚ) (low high : ℚ) : ℚ :=
  pyMaxNum low (pyMinNum high value)

/-- Function determine_signal.  The early return on fewer than two delta
observations yields the one key reason dictionary; otherwise the crossover,
gates, normalized components, weighted scores and threshold are computed as
in the source and the full score dictionary is returned. -/
def determine_signal (indicators : IndicatorSnapshot)
    (inputs : StrategyInputs) : Option String × ScoreOutput :=
  let macd_delta := indicators.macd_delta
  let delta_series := indicators.delta_series
  let bb_width_series := indicators.bb_width_series
  if delta_series.length < 2 then
    (none, ScoreOutput.insufficient ("insufficient data for MACD crossover"))
  else
    let prev_delta := delta_series.getD (delta_series.length - 2) none
    let crossed_above := pyLe prev_delta (some 0) && pyGt macd_delta (some 0)
    let crossed_below := pyGe prev_delta (some 0) && pyLt macd_delta (some 0)
    let base_long := crossed_above &&
      pyGt macd_delta (some inputs.macd_delta_min) &&
      pyGt indicators.bb_width (some inputs.bb_min_expansion)
    let base_short := crossed_below &&
      pyLt macd_delta (some (-inputs.macd_delta_min)) &&
      pyGt indicators.bb_width (some inputs.bb_min_expansion)
    let trend_ok_long := !inputs.use_trend_filter ||
      pyGt indicators.fast_ema indicators.slow_ema
    let trend_ok_short := !inputs.use_trend_filter ||
      pyLt indicators.fast_ema indicators.slow_ema
    let volume_ok := !inputs.use_volume_filter ||
      pyGt indicators.volume indicators.vol_ma
    let macd_mag :=
      normalize_series (sAbs delta_series) inputs.normalization_lookback
    let macd_imp_pos := normalize_series (clipLower0 (sDiff delta_series))
      inputs.normalization_lookback
    let macd_imp_neg := normalize_series (sNeg (clipUpper0 (sDiff delta_series)))
      inputs.normalization_lookback
    let macd_comp_long := 7 / 10 * macd_mag + 3 / 10 * macd_imp_pos
    let macd_comp_short := 7 / 10 * macd_mag + 3 / 10 * macd_imp_neg
    let bb_comp := normalize_series bb_width_series
      inputs.normalization_lookback
    let rsi_comp_long :=
      clamp (indicators.rsi.map (fun r => 100 * (70 - r) / 40)) 0 100
    let rsi_comp_short :=
      clamp (indicators.rsi.map (fun r => 100 * (r - 30) / 40)) 0 100
    let score_long := inputs.weight_macd * macd_comp_long +
      inputs.weight_bb * bb_comp + inputs.weight_rsi * rsi_comp_long
    let score_short := inputs.weight_macd * macd_comp_short +
      inputs.weight_bb * bb_comp + inputs.weight_rsi * rsi_comp_short
    let required : ℚ :=
      if inputs.strength_threshold = "Weak" then 60
      else if inputs.strength_threshold = "Medium" then 75
      else if inputs.strength_threshold = "Strong" then 83
      else 75
    let strength_ok_long := decide (required ≤ score_long)
    let strength_ok_short := decide (required ≤ score_short)
    let side : Option String :=
      if base_long && trend_ok_long && volume_ok && strength_ok_long then
        some ("long")
      else if base_short && trend_ok_short && volume_ok &&
          strength_ok_short then
        some ("short")
      else none
    (side, ScoreOutput.scores {
      score_long := score_long
      score_short := score_short
      required := required
      macd_component_long := macd_comp_long
      macd_component_short := macd_comp_short
      bb_component := bb_comp
      rsi_component_long := rsi_comp_long
      rsi_component_short := rsi_comp_short })

/-- Dataclass TradePlan. -/
structure TradePlan where
  side : String
  entry_price : ℚ
  stop_loss_price : ℚ
  trailing_stop_price : ℚ
  take_profit_price : ℚ
  size : ℤ
  peak_roi : ℚ
  timestamp_ms : ℤ
  deriving DecidableEq, Repr

/-- Function build_trade_plan.  The indicators argument is accepted and
ignored exactly as in the source; the wall clock read int(time.time()*1000)
is an effect and is modelled as the input now_ms.  A sizing error
propagates, so the result is an Except like determine_position_size. -/
def build_trade_plan (side : String) (entry_price : ℚ)
    (indicators : IndicatorSnapshot) (inputs : StrategyInputs)
    (trailing : TrailingStopConfig) (balance_usdt position_percent : ℚ)
    (now_ms : ℤ) : Except String TradePlan :=
  let peak_roi : ℚ := 0
  let stop_loss_price :=
    pct_to_price side entry_price (-trailing.stop_loss_roi) LEVERAGE
  let trailing_stop_price :=
    compute_trailing_stop side entry_price peak_roi trailing
      (some stop_loss_price)
  let take_profit_price :=
    pct_to_price side entry_price inputs.min_profit_roi LEVERAGE
  (determine_position_size balance_usdt entry_price position_percent
    LEVERAGE CONTRACT_MULTIPLIER).map (fun size =>
      { side := side
        entry_price := entry_price
        stop_loss_price := stop_loss_price
        trailing_stop_price := trailing_stop_price
        take_profit_price := take_profit_price
        size := size
        peak_roi := peak_roi
        timestamp_ms := now_ms })

/-- C8: with fewer than two MACD delta observations, determine_signal
returns side none together with the explicit insufficiency reason, without
raising (the embedding is total). -/
theorem determine_signal_insufficient (snap : IndicatorSnapshot)
    (inputs : StrategyInputs) (h : snap.delta_series.length < 2) :
    determine_signal snap inputs =
      (none,
        ScoreOutput.insufficient ("insufficient data for MACD crossover")) := by
  simp only [determine_signal, if_pos h]

/-- Witness for determine_signal_insufficient on the empty snapshot. -/
theorem determine_signal_insufficient_witness :
    determine_signal {} {} =
      (none,
        ScoreOutput.insufficient ("insufficient data for MACD crossover")) :=
  determine_signal_insufficient {} {} (by norm_num)

/-- C9 counterexample: with the unvalidated min_profit_roi set to 0 (the
environment can set it so), a long plan at entry 2000 has its take profit
price equal to the entry price, refuting the strict inequality
entry < take profit claimed for every produced TradePlan. -/
theorem trade_plan_zero_min_profit_counterexample :
    build_trade_plan "long" 2000 {} { min_profit_roi := 0 } {} 5000 1 0 =
      Except.ok
        { side := "long"
          entry_price := 2000
          stop_loss_price := 9991 / 5
          trailing_stop_price := 9991 / 5
          take_profit_price := 2000
          size := 2
          peak_roi := 0
          timestamp_ms := 0 } ∧
    ¬ (2000 : ℚ) < 2000 := by
  constructor
  · norm_num [build_trade_plan, pct_to_price, compute_trailing_stop,
      determine_position_size, LEVERAGE, CONTRACT_MULTIPLIER, Except.map]
  · norm_num

/-- C9 amended: every TradePlan that build_trade_plan returns with a
positive entry price, a positive trailing configuration and a positive
min_profit_roi satisfies stop loss < entry < take profit on the long side
and the inverted inequalities on the short side, and its initial trailing
stop equals the static stop loss price. -/
theorem build_trade_plan_invariants (side : String) (e : ℚ)
    (snap : IndicatorSnapshot) (inputs : StrategyInputs)
    (cfg : TrailingStopConfig) (b p : ℚ) (t : ℤ) (plan : TradePlan)
    (he : 0 < e) (hstart : 0 < cfg.start_roi) (hstep : 0 < cfg.step_roi)
    (hsl : 0 < cfg.stop_loss_roi) (hmp : 0 < inputs.min_profit_roi)
    (hok : build_trade_plan side e snap inputs cfg b p t = Except.ok plan) :
    (side = "long" →
      plan.stop_loss_price < plan.entry_price ∧
      plan.entry_price < plan.take_profit_price) ∧
    (side = "short" →
      plan.take_profit_price < plan.entry_price ∧
      plan.entry_price < plan.stop_loss_price) ∧
    plan.trailing_stop_price = plan.stop_loss_price := by
  simp only [build_trade_plan] at hok
  cases hdet : determine_position_size b e p LEVERAGE CONTRACT_MULTIPLIER with
  | error msg =>
    rw [hdet] at hok
    exact absurd hok (by simp [Except.map])
  | ok sz =>
    rw [hdet] at hok
    simp only [Except.map] at hok
    have hplan := Except.ok.inj hok
    subst hplan
    refine ⟨?_, ?_, ?_⟩
    · intro hs
      subst hs
      constructor
      · show pct_to_price "long" e (-cfg.stop_loss_roi) LEVERAGE < e
        simp only [pct_to_price, LEVERAGE, if_pos]
        nlinarith [mul_pos he hsl]
      · show e < pct_to_price "long" e inputs.min_profit_roi LEVERAGE
        simp only [pct_to_price, LEVERAGE, if_pos]
        nlinarith [mul_pos he hmp]
    · intro hs
      subst hs
      have hne : ¬ ("short" : String) = "long" := by decide
      constructor
      · show pct_to_price "short" e inputs.min_profit_roi LEVERAGE < e
        simp only [pct_to_price, LEVERAGE, if_neg hne]
        nlinarith [mul_pos he hmp]
      · show e < pct_to_price "short" e (-cfg.stop_loss_roi) LEVERAGE
        simp only [pct_to_price, LEVERAGE, if_neg hne]
        nlinarith [mul_pos he hsl]
    · show compute_trailing_stop side e 0 cfg
        (some (pct_to_price side e (-cfg.stop_loss_roi) LEVERAGE)) =
        pct_to_price side e (-cfg.stop_loss_roi) LEVERAGE
      by_cases hs : side = "long" <;>
        simp [compute_trailing_stop, not_le.mpr hstart, hs]

/-- Witness for build_trade_plan_invariants on a concrete long plan with
the source defaults. -/
theorem build_trade_plan_invariants_witness :
    ((9991 / 5 : ℚ) < 2000 ∧ (2000 : ℚ) < 10001 / 5) ∧
    (9991 / 5 : ℚ) = 9991 / 5 :=
  ⟨(build_trade_plan_invariants "long" 2000 {} {} {} 5000 1 0
    { side := "long"
      entry_price := 2000
      stop_loss_price := 9991 / 5
      trailing_stop_price := 9991 / 5
      take_profit_price := 10001 / 5
      size := 2
      peak_roi := 0
      timestamp_ms := 0 }
    (by norm_num) (by norm_num) (by norm_num) (by norm_num) (by norm_num)
    (by norm_num [build_trade_plan, pct_to_price, compute_trailing_stop,
      determine_position_size, LEVERAGE, CONTRACT_MULTIPLIER,
      Except.map])).1 rfl,
   (build_trade_plan_invariants "long" 2000 {} {} {} 5000 1 0
    { side := "long"
      entry_price := 2000
      stop_loss_price := 9991 / 5
      trailing_stop_price := 9991 / 5
      take_profit_price := 10001 / 5
      size := 2
      peak_roi := 0
      timestamp_ms := 0 }
    (by norm_num) (by norm_num) (by norm_num) (by norm_num) (by norm_num)
    (by norm_num [build_trade_plan, pct_to_price, compute_trailing_stop,
      determine_position_size, LEVERAGE, CONTRACT_MULTIPLIER,
      Except.map])).2.2⟩

end EthMacdStrategy
